import Mathlib

/-!
Verification of the mlflow tutorial script `sample.py`.

The script's only algorithmic core is `wait_model_transition`, a bounded
polling loop against a model registry: up to 10 attempts, each attempt
fetches the version's status; on READY it issues a stage transition and
breaks, otherwise it sleeps one second and retries.  Around it, `main`
sets up an experiment, registers a model, searches the registered
versions, takes the maximum version number, updates the description and
then polls twice (previous version, then current version), the first
poll wrapped in a try/except.

We embed those parts shallowly: each external registry call becomes an
`Event` recorded in a trace, a lookup that can fail is an
`Except Unit Status` supplied by an environment `resp : Nat → Except Unit
Status` (the result of the i-th lookup), and a Python exception escaping
a function is an `Except.error` result.
-/

/-- Registry version status, from `ModelVersionStatus`
(`PENDING_REGISTRATION`, `FAILED_REGISTRATION`, `READY`). -/
inductive Status
  | PENDING_REGISTRATION
  | FAILED_REGISTRATION
  | READY
deriving DecidableEq, Repr

instance (α β : Type) [DecidableEq α] [DecidableEq β] : DecidableEq (Except α β) :=
  fun x y =>
    match x, y with
    | Except.error a, Except.error b => decidable_of_iff (a = b) (by simp)
    | Except.ok a, Except.ok b => decidable_of_iff (a = b) (by simp)
    | Except.error _, Except.ok _ => isFalse fun h => Except.noConfusion h
    | Except.ok _, Except.error _ => isFalse fun h => Except.noConfusion h

/-- Observable effects of the script on the registry client and the
process: each constructor is one external call of `sample.py`. -/
inductive Event
  | getStatus (name : String) (version : Int) (result : Except Unit Status)
  | transition (name : String) (version : Int) (stage : String)
  | sleep
  | logError
  | searchVersions (name : String)
  | updateVersion (name : String) (version : Int)
  | registerModel (name : String)
  | createExperiment (name : String)
  | logInfo (id : String)
deriving DecidableEq, Repr

/-- The body of `wait_model_transition`'s `for _ in range(10)` loop,
with `m` iterations left and `i` lookups already made.  Each iteration
calls `client.get_model_version` (its result drawn from `resp`); a
failing lookup raises out of the function; on READY it calls
`client.transition_model_version_stage` and breaks; otherwise it sleeps
and continues.  Returns the trace of events and whether the function
returned normally. -/
def waitLoop (resp : Nat → Except Unit Status) (name : String) (ver : Int)
    (stage : String) : Nat → Nat → List Event × Except Unit Unit
  | 0, _ => ([], Except.ok ())
  | m + 1, i =>
    match resp i with
    | Except.error e => ([Event.getStatus name ver (Except.error e)], Except.error e)
    | Except.ok st =>
      if st = Status.READY then
        ([Event.getStatus name ver (Except.ok st), Event.transition name ver stage],
         Except.ok ())
      else
        let rest := waitLoop resp name ver stage m (i + 1)
        (Event.getStatus name ver (Except.ok st) :: Event.sleep :: rest.1, rest.2)

/-- The function `wait_model_transition(model_name, model_version, stage)`
(sample.py lines 27-42): ten polling attempts starting at lookup 0. -/
def wait_model_transition (resp : Nat → Except Unit Status) (name : String)
    (ver : Int) (stage : String) : List Event × Except Unit Unit :=
  waitLoop resp name ver stage 10 0

/-- The polling section of `main` (sample.py lines 156-164): the call for
the previous version (stage "None") is wrapped in try/except, whose
handler logs the error; the call for the current version (stage
"Staging") is not wrapped, so its exception is the section's result. -/
def mainPollingSection (resp1 resp2 : Nat → Except Unit Status) (name : String)
    (ver : Int) : List Event × Except Unit Unit :=
  let r1 := wait_model_transition resp1 name (ver - 1) "None"
  let caught : List Event :=
    match r1.2 with
    | Except.error _ => [Event.logError]
    | Except.ok _ => []
  let r2 := wait_model_transition resp2 name ver "Staging"
  (r1.1 ++ caught ++ r2.1, r2.2)

/-- The string `"clf-model"`, the `artifact_name` under which the model
is registered (sample.py lines 51, 142-143). -/
def artifact_name : String := "clf-model"

/-- The path `os.path.join(os.getenv("HOME"), "mlflow_artifacts", "clf-model")`
(sample.py line 52), as a function of the HOME directory. -/
def artifact_path (home : String) : String :=
  home ++ "/mlflow_artifacts/clf-model"

/-- The `mlflow.register_model(model_uri=model_uri, name=artifact_name)`
call of sample.py lines 142-143: the registration uses `artifact_name`. -/
def registerModelCall : Event := Event.registerModel artifact_name

/-- Python `max` on a list of version numbers (sample.py line 147):
raises `ValueError` on an empty list. -/
def pyMax : List Int → Except Unit Int
  | [] => Except.error ()
  | x :: xs => Except.ok (xs.foldl max x)

/-- The post-registration part of `main` (sample.py lines 145-164):
search the versions of the name `artifact_path`, take the maximum
version number (raising on an empty result), update that version's
description under the name `artifact_path`, then run the two polls,
again under the name `artifact_path`.  `versions` is the list of version
numbers the search returns. -/
def postRegistration (home : String) (versions : List Int)
    (resp1 resp2 : Nat → Except Unit Status) : List Event × Except Unit Unit :=
  let name := artifact_path home
  match pyMax versions with
  | Except.error e => ([Event.searchVersions name], Except.error e)
  | Except.ok v =>
    let poll := mainPollingSection resp1 resp2 name v
    (Event.searchVersions name :: Event.updateVersion name v :: poll.1, poll.2)

/-- An mlflow experiment record, as far as `main` reads it. -/
structure Experiment where
  experiment_id : String
deriving DecidableEq, Repr

/-- The experiment name `"my-experiment"` (sample.py line 92). -/
def experiment_name : String := "my-experiment"

/-- Python attribute access `mlf_experiment.experiment_id`: on `None`
it raises `AttributeError`. -/
def experimentIdOf : Option Experiment → Except Unit String
  | none => Except.error ()
  | some e => Except.ok e.experiment_id

/-- The experiment-setup step of `main` (sample.py lines 97-107):
the call `get_experiment_by_name` returns `getByName`; when it is absent the
experiment is created; then `logger.info` reads
`mlf_experiment.experiment_id` from the original lookup result. -/
def experimentSetup (getByName : Option Experiment) : List Event × Except Unit Unit :=
  let createEvs : List Event :=
    match getByName with
    | none => [Event.createExperiment experiment_name]
    | some _ => []
  match experimentIdOf getByName with
  | Except.error e => (createEvs, Except.error e)
  | Except.ok i => (createEvs ++ [Event.logInfo i], Except.ok ())

/-- Is the event a stage-transition call? -/
def isTransition : Event → Bool
  | Event.transition _ _ _ => true
  | _ => false

/-- Is the event a sleep? -/
def isSleep : Event → Bool
  | Event.sleep => true
  | _ => false

/-- Is the event a status lookup that returned READY? -/
def isReadyGet : Event → Bool
  | Event.getStatus _ _ (Except.ok Status.READY) => true
  | _ => false

/-- Number of sleeps in a trace. -/
def countSleeps (tr : List Event) : Nat := (tr.filter isSleep).length

/-- Once a transition event occurs, no sleep may follow it. -/
def noSleepAfterTransition : List Event → Bool
  | [] => true
  | Event.transition _ _ _ :: rest => rest.all fun e => ! isSleep e
  | _ :: rest => noSleepAfterTransition rest

/-- Every event directly followed by a transition is a READY lookup. -/
def readyBeforeTransition : List Event → Bool
  | a :: b :: rest =>
    (! isTransition b || isReadyGet a) && readyBeforeTransition (b :: rest)
  | _ => true

/-- Does the trace start with a transition (a transition with no
preceding lookup at all)? -/
def headIsTransition : List Event → Bool
  | Event.transition _ _ _ :: _ => true
  | _ => false

/-- The registry model name an event carries, when it carries one. -/
def nameArg : Event → Option String
  | Event.getStatus n _ _ => some n
  | Event.transition n _ _ => some n
  | Event.searchVersions n => some n
  | Event.updateVersion n _ => some n
  | Event.registerModel n => some n
  | _ => none

/-- Trace of the first `d` attempts when none of them sees READY and
none fails: each contributes a lookup and a sleep.  `i` is the index of
the first of these lookups. -/
def pendingTrace (f : Nat → Status) (name : String) (ver : Int) :
    Nat → Nat → List Event
  | _, 0 => []
  | i, d + 1 =>
    Event.getStatus name ver (Except.ok (f i)) :: Event.sleep ::
      pendingTrace f name ver (i + 1) d

/-- The status-response sequence of end-to-end scenario 1:
PENDING_REGISTRATION, PENDING_REGISTRATION, then READY. -/
def scenario1 : Nat → Status :=
  fun i => if i < 2 then Status.PENDING_REGISTRATION else Status.READY

lemma waitLoop_never_ready (f : Nat → Status) (n : String) (v : Int) (s : String) :
    ∀ m i, (∀ j, j < m → f (i + j) ≠ Status.READY) →
      waitLoop (fun j => Except.ok (f j)) n v s m i =
        (pendingTrace f n v i m, Except.ok ()) := by
  intro m
  induction m with
  | zero => intro i _; rfl
  | succ m ih =>
    intro i h
    have h0 : f i ≠ Status.READY := by
      have := h 0 (Nat.succ_pos m); simpa using this
    have h' : ∀ j, j < m → f (i + 1 + j) ≠ Status.READY := by
      intro j hj
      have := h (j + 1) (Nat.succ_lt_succ hj)
      rwa [show i + (j + 1) = i + 1 + j by omega] at this
    simp [waitLoop, h0, ih (i + 1) h', pendingTrace]

lemma waitLoop_ready_eq (f : Nat → Status) (n : String) (v : Int) (s : String) :
    ∀ d m i, d < m → f (i + d) = Status.READY →
      (∀ e, e < d → f (i + e) ≠ Status.READY) →
      waitLoop (fun j => Except.ok (f j)) n v s m i =
        (pendingTrace f n v i d ++
          [Event.getStatus n v (Except.ok Status.READY), Event.transition n v s],
         Except.ok ()) := by
  intro d
  induction d with
  | zero =>
    intro m i hm hready _
    obtain ⟨m', rfl⟩ : ∃ m', m = m' + 1 := ⟨m - 1, by omega⟩
    have hfi : f i = Status.READY := by simpa using hready
    simp [waitLoop, hfi, pendingTrace]
  | succ d ih =>
    intro m i hm hready hbef
    obtain ⟨m', rfl⟩ : ∃ m', m = m' + 1 := ⟨m - 1, by omega⟩
    have h0 : f i ≠ Status.READY := by
      have := hbef 0 (Nat.succ_pos d); simpa using this
    have hready' : f (i + 1 + d) = Status.READY := by
      rwa [show i + 1 + d = i + (d + 1) by omega]
    have hbef' : ∀ e, e < d → f (i + 1 + e) ≠ Status.READY := by
      intro e he
      have := hbef (e + 1) (Nat.succ_lt_succ he)
      rwa [show i + (e + 1) = i + 1 + e by omega] at this
    simp [waitLoop, h0, ih m' (i + 1) (by omega) hready' hbef', pendingTrace]

lemma pendingTrace_filter_isTransition (f : Nat → Status) (n : String) (v : Int) :
    ∀ d i, (pendingTrace f n v i d).filter isTransition = [] := by
  intro d
  induction d with
  | zero => intro i; rfl
  | succ d ih => intro i; simp [pendingTrace, isTransition, ih]

lemma countSleeps_pendingTrace (f : Nat → Status) (n : String) (v : Int) :
    ∀ d i, countSleeps (pendingTrace f n v i d) = d := by
  intro d
  induction d with
  | zero => intro i; rfl
  | succ d ih =>
    intro i
    simp [pendingTrace, countSleeps, isSleep, List.filter] at ih ⊢
    exact ih (i + 1)

lemma countSleeps_waitLoop_le (resp : Nat → Except Unit Status) (n : String)
    (v : Int) (s : String) :
    ∀ m i, countSleeps (waitLoop resp n v s m i).1 ≤ m := by
  intro m
  induction m with
  | zero => intro i; simp [waitLoop, countSleeps]
  | succ m ih =>
    intro i
    cases hr : resp i with
    | error e => simp [waitLoop, hr, countSleeps, List.filter, isSleep]
    | ok st =>
      by_cases hst : st = Status.READY
      · simp [waitLoop, hr, hst, countSleeps, List.filter, isSleep]
      · have := ih (i + 1)
        simp [waitLoop, hr, hst, countSleeps, List.filter, isSleep] at this ⊢
        omega

lemma noSleepAfterTransition_waitLoop (resp : Nat → Except Unit Status)
    (n : String) (v : Int) (s : String) :
    ∀ m i, noSleepAfterTransition (waitLoop resp n v s m i).1 = true := by
  intro m
  induction m with
  | zero => intro i; rfl
  | succ m ih =>
    intro i
    cases hr : resp i with
    | error e => simp [waitLoop, hr, noSleepAfterTransition]
    | ok st =>
      by_cases hst : st = Status.READY
      · simp [waitLoop, hr, hst, noSleepAfterTransition, isSleep]
      · have := ih (i + 1)
        simp [waitLoop, hr, hst, noSleepAfterTransition]
        exact this

lemma waitLoop_head_not_transition (resp : Nat → Except Unit Status)
    (n : String) (v : Int) (s : String) (m i : Nat) :
    headIsTransition (waitLoop resp n v s m i).1 = false := by
  cases m with
  | zero => rfl
  | succ m =>
    cases hr : resp i with
    | error e => simp [waitLoop, hr, headIsTransition]
    | ok st =>
      by_cases hst : st = Status.READY
      · simp [waitLoop, hr, hst, headIsTransition]
      · simp [waitLoop, hr, hst, headIsTransition]

lemma readyBeforeTransition_waitLoop (resp : Nat → Except Unit Status)
    (n : String) (v : Int) (s : String) :
    ∀ m i, readyBeforeTransition (waitLoop resp n v s m i).1 = true := by
  intro m
  induction m with
  | zero => intro i; rfl
  | succ m ih =>
    intro i
    cases hr : resp i with
    | error e => simp [waitLoop, hr, readyBeforeTransition]
    | ok st =>
      by_cases hst : st = Status.READY
      · subst hst
        simp [waitLoop, hr, readyBeforeTransition, isTransition, isReadyGet]
      · have hrest := ih (i + 1)
        have hhead := waitLoop_head_not_transition resp n v s m (i + 1)
        cases hrl : (waitLoop resp n v s m (i + 1)).1 with
        | nil =>
          simp [waitLoop, hr, hst, hrl, readyBeforeTransition, isTransition]
        | cons c cs =>
          have hc : isTransition c = false := by
            rw [hrl] at hhead
            cases c <;> simp [headIsTransition, isTransition] at hhead ⊢
          rw [hrl] at hrest
          have hsleepT : isTransition Event.sleep = false := rfl
          have hgetT : ∀ r, isTransition (Event.getStatus n v r) = false :=
            fun r => rfl
          simp [waitLoop, hr, hst, hrl, readyBeforeTransition, hc, hrest,
            hsleepT, hgetT]

lemma nameArg_waitLoop (resp : Nat → Except Unit Status) (n : String) (v : Int)
    (s : String) :
    ∀ m i e, e ∈ (waitLoop resp n v s m i).1 →
      nameArg e = none ∨ nameArg e = some n := by
  intro m
  induction m with
  | zero => intro i e he; simp [waitLoop] at he
  | succ m ih =>
    intro i e he
    cases hr : resp i with
    | error er =>
      simp [waitLoop, hr] at he
      subst he
      simp [nameArg]
    | ok st =>
      by_cases hst : st = Status.READY
      · simp [waitLoop, hr, hst] at he
        rcases he with rfl | rfl <;> simp [nameArg]
      · simp [waitLoop, hr, hst] at he
        rcases he with rfl | rfl | hmem
        · simp [nameArg]
        · simp [nameArg]
        · exact ih (i + 1) e hmem

lemma waitLoop_ne_nil (resp : Nat → Except Unit Status) (n : String) (v : Int)
    (s : String) (m i : Nat) :
    (waitLoop resp n v s (m + 1) i).1 ≠ [] := by
  cases hr : resp i with
  | error e => simp [waitLoop, hr]
  | ok st => by_cases hst : st = Status.READY <;> simp [waitLoop, hr, hst]

lemma nameArg_wait_model_transition (resp : Nat → Except Unit Status)
    (n : String) (v : Int) (s : String) :
    ∀ e, e ∈ (wait_model_transition resp n v s).1 →
      nameArg e = none ∨ nameArg e = some n :=
  nameArg_waitLoop resp n v s 10 0

lemma nameArg_mainPollingSection (resp1 resp2 : Nat → Except Unit Status)
    (n : String) (v : Int) :
    ∀ e, e ∈ (mainPollingSection resp1 resp2 n v).1 →
      nameArg e = none ∨ nameArg e = some n := by
  intro e he
  simp only [mainPollingSection, List.mem_append] at he
  rcases he with (h1 | hc) | h2
  · exact nameArg_wait_model_transition resp1 n (v - 1) "None" e h1
  · revert hc
    cases (wait_model_transition resp1 n (v - 1) "None").2 with
    | error er => intro hc; simp at hc; subst hc; simp [nameArg]
    | ok u => intro hc; simp at hc
  · exact nameArg_wait_model_transition resp2 n v "Staging" e h2

lemma artifact_path_ne_artifact_name (home : String) :
    artifact_path home ≠ artifact_name := by
  intro h
  have hlen := congrArg String.length h
  rw [artifact_path, artifact_name, String.length_append] at hlen
  have h27 : ("/mlflow_artifacts/clf-model" : String).length = 27 := rfl
  have h9 : ("clf-model" : String).length = 9 := rfl
  omega

/-- C1: for every sequence of successful status responses in which READY
first appears at attempt k (1 ≤ k ≤ 10), `wait_model_transition` issues
exactly one stage-transition call, whose stage argument is the requested
target stage, and performs no further status lookups or sleeps after
that transition (the transition is the last event of the trace). -/
theorem wait_ready_single_transition (f : Nat → Status) (n : String) (v : Int)
    (s : String) (k : Nat) (hk1 : 1 ≤ k) (hk10 : k ≤ 10)
    (hready : f (k - 1) = Status.READY)
    (hbef : ∀ j, j < k - 1 → f j ≠ Status.READY) :
    (wait_model_transition (fun i => Except.ok (f i)) n v s).1.filter isTransition
        = [Event.transition n v s] ∧
    (wait_model_transition (fun i => Except.ok (f i)) n v s).1.getLast?
        = some (Event.transition n v s) := by
  have hk : k - 1 < 10 := by omega
  have h0 : ∀ e, e < k - 1 → f (0 + e) ≠ Status.READY := by simpa using hbef
  have hr : f (0 + (k - 1)) = Status.READY := by simpa using hready
  have heq := waitLoop_ready_eq f n v s (k - 1) 10 0 hk hr h0
  unfold wait_model_transition
  rw [heq]
  constructor
  · rw [List.filter_append, pendingTrace_filter_isTransition]
    simp [isTransition]
  · rw [show [Event.getStatus n v (Except.ok Status.READY), Event.transition n v s]
        = [Event.getStatus n v (Except.ok Status.READY)] ++ [Event.transition n v s]
        from rfl,
      ← List.append_assoc]
    simp

/-- Witness for C1 at the response sequence that is READY from the first
attempt, with k = 1. -/
theorem wait_ready_single_transition_witness :
    (wait_model_transition (fun i => Except.ok ((fun _ => Status.READY) i))
          "m" 1 "Staging").1.filter isTransition
        = [Event.transition "m" 1 "Staging"] ∧
    (wait_model_transition (fun i => Except.ok ((fun _ => Status.READY) i))
          "m" 1 "Staging").1.getLast?
        = some (Event.transition "m" 1 "Staging") :=
  wait_ready_single_transition (fun _ => Status.READY) "m" 1 "Staging" 1
    (by omega) (by omega) rfl (fun j hj => absurd hj (by omega))

/-- C2: for every sequence of successful status responses that never
equals READY in any of the 10 attempts, `wait_model_transition` issues
zero stage-transition calls and returns normally. -/
theorem wait_never_ready_no_transition (f : Nat → Status) (n : String) (v : Int)
    (s : String) (hnever : ∀ j, j < 10 → f j ≠ Status.READY) :
    (wait_model_transition (fun i => Except.ok (f i)) n v s).1.filter isTransition
        = [] ∧
    (wait_model_transition (fun i => Except.ok (f i)) n v s).2 = Except.ok () := by
  have h : ∀ j, j < 10 → f (0 + j) ≠ Status.READY := by simpa using hnever
  have heq := waitLoop_never_ready f n v s 10 0 h
  unfold wait_model_transition
  rw [heq]
  exact ⟨pendingTrace_filter_isTransition f n v 10 0, rfl⟩

/-- Witness for C2 at the all-PENDING_REGISTRATION response sequence. -/
theorem wait_never_ready_no_transition_witness :
    (wait_model_transition
          (fun i => Except.ok ((fun _ => Status.PENDING_REGISTRATION) i))
          "m" 1 "Staging").1.filter isTransition = [] ∧
    (wait_model_transition
          (fun i => Except.ok ((fun _ => Status.PENDING_REGISTRATION) i))
          "m" 1 "Staging").2 = Except.ok () :=
  wait_never_ready_no_transition (fun _ => Status.PENDING_REGISTRATION)
    "m" 1 "Staging" (fun _ _ h => Status.noConfusion h)

/-- C3, counterexample: with ten PENDING_REGISTRATION responses,
`wait_model_transition` sleeps 10 times, not at most 9 — the loop body
also sleeps after the final (10th) attempt. -/
theorem wait_sleeps_ten_counterexample :
    ¬ countSleeps (wait_model_transition
        (fun _ => Except.ok Status.PENDING_REGISTRATION) "m" 1 "Staging").1 ≤ 9 := by
  decide

/-- C3 as amended: `wait_model_transition` sleeps at most 10 times over
its 10-attempt budget; it never sleeps after the attempt on which READY
was observed and the transition issued; and when READY is never observed
it sleeps exactly 10 times, once after each attempt, the final one
included. -/
theorem wait_sleep_bound_amended (f : Nat → Status) (n : String) (v : Int)
    (s : String) :
    countSleeps (wait_model_transition (fun i => Except.ok (f i)) n v s).1 ≤ 10 ∧
    noSleepAfterTransition
        (wait_model_transition (fun i => Except.ok (f i)) n v s).1 = true ∧
    ((∀ j, j < 10 → f j ≠ Status.READY) →
      countSleeps (wait_model_transition (fun i => Except.ok (f i)) n v s).1 = 10) := by
  refine ⟨countSleeps_waitLoop_le _ n v s 10 0,
    noSleepAfterTransition_waitLoop _ n v s 10 0, ?_⟩
  intro hnever
  have h : ∀ j, j < 10 → f (0 + j) ≠ Status.READY := by simpa using hnever
  unfold wait_model_transition
  rw [waitLoop_never_ready f n v s 10 0 h]
  exact countSleeps_pendingTrace f n v 10 0

/-- Witness for the amended C3 at the all-PENDING_REGISTRATION sequence:
exactly 10 sleeps. -/
theorem wait_sleep_bound_amended_witness :
    countSleeps (wait_model_transition
        (fun i => Except.ok ((fun _ => Status.PENDING_REGISTRATION) i))
        "m" 1 "Staging").1 = 10 :=
  (wait_sleep_bound_amended (fun _ => Status.PENDING_REGISTRATION)
      "m" 1 "Staging").2.2 (fun _ _ h => Status.noConfusion h)

/-- C4: for every response sequence (failures included),
`wait_model_transition` never issues a stage transition except
immediately after a status lookup that returned READY: every event
directly preceding a transition in the trace is a READY lookup, and the
trace never begins with a transition. -/
theorem wait_transition_only_after_ready (resp : Nat → Except Unit Status)
    (n : String) (v : Int) (s : String) :
    readyBeforeTransition (wait_model_transition resp n v s).1 = true ∧
    headIsTransition (wait_model_transition resp n v s).1 = false :=
  ⟨readyBeforeTransition_waitLoop resp n v s 10 0,
   waitLoop_head_not_transition resp n v s 10 0⟩

/-- C5, counterexample: when the very first version lookup fails, the
failure propagates out of `wait_model_transition` itself — the function
installs no handler, so the exception escapes its boundary. -/
theorem wait_lookup_failure_escapes_counterexample :
    (wait_model_transition (fun _ => Except.error ()) "m" 1 "None").2
      = Except.error () := rfl

/-- C5 as amended: `wait_model_transition` does not catch lookup
failures; in `main`, only the previous-version invocation is wrapped in
try/except, so a failure there never escapes the polling section, while
the polling section's own result is exactly the current-version
invocation's result — a failure in the second invocation propagates. -/
theorem polling_section_result_amended (resp1 resp2 : Nat → Except Unit Status)
    (n : String) (v : Int) :
    (mainPollingSection resp1 resp2 n v).2
      = (wait_model_transition resp2 n v "Staging").2 := rfl

/-- C6: when the first polling call (previous version, stage "None")
raises a lookup error, `main` catches it, logs it, and still executes
the second polling call for the current version, whose trace is nonempty
(it performs at least one status lookup). -/
theorem first_poll_failure_caught_second_runs
    (resp1 resp2 : Nat → Except Unit Status) (n : String) (v : Int)
    (h : (wait_model_transition resp1 n (v - 1) "None").2 = Except.error ()) :
    mainPollingSection resp1 resp2 n v =
      ((wait_model_transition resp1 n (v - 1) "None").1 ++
        Event.logError :: (wait_model_transition resp2 n v "Staging").1,
       (wait_model_transition resp2 n v "Staging").2) ∧
    (wait_model_transition resp2 n v "Staging").1 ≠ [] := by
  constructor
  · simp [mainPollingSection, h]
  · exact waitLoop_ne_nil resp2 n v "Staging" 9 0

/-- Witness for C6: the previous-version lookup always fails, the
current-version lookup is READY at once. -/
theorem first_poll_failure_caught_second_runs_witness :
    (mainPollingSection (fun _ => Except.error ())
          (fun _ => Except.ok Status.READY) "m" 1 =
      ((wait_model_transition (fun _ => Except.error ()) "m" (1 - 1) "None").1 ++
        Event.logError ::
          (wait_model_transition (fun _ => Except.ok Status.READY) "m" 1 "Staging").1,
       (wait_model_transition (fun _ => Except.ok Status.READY) "m" 1 "Staging").2)) ∧
    (wait_model_transition (fun _ => Except.ok Status.READY) "m" 1 "Staging").1 ≠ [] :=
  first_poll_failure_caught_second_runs (fun _ => Except.error ())
    (fun _ => Except.ok Status.READY) "m" 1 rfl

/-- C7: on the status sequence PENDING_REGISTRATION,
PENDING_REGISTRATION, READY, `wait_model_transition` with target stage
"Staging" performs exactly 2 sleeps and exactly one transition call, and
that call carries stage "Staging". -/
theorem scenario_pending_pending_ready (n : String) (v : Int) :
    countSleeps (wait_model_transition (fun i => Except.ok (scenario1 i))
        n v "Staging").1 = 2 ∧
    (wait_model_transition (fun i => Except.ok (scenario1 i))
        n v "Staging").1.filter isTransition
      = [Event.transition n v "Staging"] := by
  constructor <;> rfl

/-- C8: evaluation of the experiment-setup step of `main` at the failing
input. When `get_experiment_by_name` returns no match, the code does
create the experiment, but the following `logger.info` line reads
`experiment_id` from the original (absent) lookup result, raising — the
code dereferences the absent result instead of proceeding. -/
theorem experiment_absent_setup_raises :
    experimentSetup none
      = ([Event.createExperiment experiment_name], Except.error ()) := rfl

/-- C9: every post-registration registry call of `main` (version search,
description update, and every lookup and transition of both polls)
carries the filesystem path `artifact_path` as its model name; that
string differs from `artifact_name` = "clf-model", the name under which
`register_model` registered the model. -/
theorem post_registration_uses_artifact_path (home : String)
    (versions : List Int) (resp1 resp2 : Nat → Except Unit Status) :
    (∀ e, e ∈ (postRegistration home versions resp1 resp2).1 →
        nameArg e = none ∨ nameArg e = some (artifact_path home)) ∧
    artifact_path home ≠ artifact_name ∧
    registerModelCall = Event.registerModel "clf-model" := by
  refine ⟨?_, artifact_path_ne_artifact_name home, rfl⟩
  intro e he
  simp only [postRegistration] at he
  cases hm : pyMax versions with
  | error er =>
    rw [hm] at he
    simp at he
    subst he
    simp [nameArg]
  | ok w =>
    rw [hm] at he
    simp at he
    rcases he with rfl | rfl | hmem
    · simp [nameArg]
    · simp [nameArg]
    · exact nameArg_mainPollingSection resp1 resp2 (artifact_path home) w e hmem

/-- Witness for C9: the version-search event of a concrete
post-registration run carries the artifact path as its name. -/
theorem post_registration_uses_artifact_path_witness :
    nameArg (Event.searchVersions (artifact_path "/root")) = none ∨
    nameArg (Event.searchVersions (artifact_path "/root"))
      = some (artifact_path "/root") :=
  (post_registration_uses_artifact_path "/root" []
      (fun _ => Except.ok Status.READY) (fun _ => Except.ok Status.READY)).1
    (Event.searchVersions (artifact_path "/root"))
    (List.mem_singleton_self _)

/-- C10: when the version search returns an empty list, the Python `max`
over the version numbers raises, so `main` aborts right after the search
event — no description update and no stage-transition poll is issued;
conversely `max` succeeds on every nonempty version list, so `main`
carries the unstated precondition that at least one version exists. -/
theorem empty_version_search_aborts (home : String)
    (resp1 resp2 : Nat → Except Unit Status) :
    postRegistration home [] resp1 resp2
        = ([Event.searchVersions (artifact_path home)], Except.error ()) ∧
    ∀ v vs, ∃ w, pyMax (v :: vs) = Except.ok w :=
  ⟨rfl, fun v vs => ⟨vs.foldl max v, rfl⟩⟩
